import Mathlib

/-!
Verification of the voice-channel notifier bot (`bot.py`).

The Python source is shallowly embedded: the mutable cog state (`join_times`,
`daily_total`, `active_users`, `dest_channel_id`, and the persisted totals
file) becomes an explicit `TrackerState`; each event handler becomes a pure
function from the old state to the new state paired with the list of messages
it hands to `notify`.  Python `dict`s are insertion-ordered association lists,
Python `set`s are duplicate-free lists, and wall-clock instants / durations
are integers (seconds).  Python `divmod` is floor division, hence `Int.fdiv`
and `Int.fmod`.
-/

set_option autoImplicit false

namespace VcBot

/-- A voice channel: id and display name (only the fields the handler reads). -/
structure Channel where
  id : Nat
  name : String
deriving DecidableEq, Repr

/-- A guild member: id, bot flag, display name. -/
structure Member where
  id : Nat
  bot : Bool
  displayName : String
deriving DecidableEq, Repr

/-- A `discord.VoiceState`: the handler only reads `.channel`
(`None` means the member is in no voice channel). -/
structure VoiceState where
  channel : Option Channel
deriving DecidableEq, Repr

/-- Python `dict[int, float]` lookup `d.get(k)`: first binding of `k`. -/
def dictGet (d : List (Nat × Int)) (k : Nat) : Option Int :=
  match d with
  | [] => none
  | (k', v) :: rest => if k' = k then some v else dictGet rest k

/-- Python `d.get(k, v0)`. -/
def dictGetD (d : List (Nat × Int)) (k : Nat) (v0 : Int) : Int :=
  (dictGet d k).getD v0

/-- Python `d[k] = v`: replace the existing binding in place, or append. -/
def dictSet (d : List (Nat × Int)) (k : Nat) (v : Int) : List (Nat × Int) :=
  match d with
  | [] => [(k, v)]
  | (k', v') :: rest => if k' = k then (k, v) :: rest else (k', v') :: dictSet rest k v

/-- Python `d.pop(k, None)`: the popped value (if any) and the remaining dict. -/
def dictPop (d : List (Nat × Int)) (k : Nat) : Option Int × List (Nat × Int) :=
  match d with
  | [] => (none, [])
  | (k', v) :: rest =>
      if k' = k then (some v, rest)
      else
        let r := dictPop rest k
        (r.1, (k', v) :: r.2)

/-- Python `s.add(x)` on a set, modelled as a duplicate-free list. -/
def setAdd (s : List Nat) (x : Nat) : List Nat :=
  if x ∈ s then s else s ++ [x]

@[simp] theorem dictGet_dictSet (d : List (Nat × Int)) (k : Nat) (v : Int) :
    dictGet (dictSet d k v) k = some v := by
  induction d with
  | nil => simp [dictSet, dictGet]
  | cons p rest ih =>
      obtain ⟨k', v'⟩ := p
      by_cases h : k' = k <;> simp [dictSet, dictGet, h, ih]

theorem dictPop_fst (d : List (Nat × Int)) (k : Nat) :
    (dictPop d k).1 = dictGet d k := by
  induction d with
  | nil => simp [dictPop, dictGet]
  | cons p rest ih =>
      obtain ⟨k', v'⟩ := p
      by_cases h : k' = k <;> simp [dictPop, dictGet, h, ih]

theorem dictPop_snd_of_absent (d : List (Nat × Int)) (k : Nat)
    (h : dictGet d k = none) : (dictPop d k).2 = d := by
  induction d with
  | nil => simp [dictPop]
  | cons p rest ih =>
      obtain ⟨k', v'⟩ := p
      by_cases hk : k' = k
      · simp [dictGet, hk] at h
      · simp [dictGet, hk] at h
        simp [dictPop, hk, ih h]

@[simp] theorem setAdd_mem_self (s : List Nat) (x : Nat) : x ∈ setAdd s x := by
  by_cases h : x ∈ s <;> simp [setAdd, h]

/-- The mutable state of `VcNotifier` together with the on-disk totals
document (`data/daily_totals.json`), abstracted to the mapping it stores. -/
structure TrackerState where
  destChannelId : Option Nat
  joinTimes : List (Nat × Int)
  dailyTotal : List (Nat × Int)
  activeUsers : List Nat
  persistedTotals : List (Nat × Int)
deriving DecidableEq, Repr

/-- The local `fmt` inside the leave branch of `on_voice_state_update`:
`sec < 60` prints seconds, `sec < 3600` prints `divmod(sec, 60)`, otherwise
`divmod(sec, 3600)` then `divmod(rem, 60)`. -/
def fmt (sec : Int) : String :=
  if sec < 60 then toString sec ++ "秒"
  else if sec < 3600 then
    toString (Int.fdiv sec 60) ++ "分" ++ toString (Int.fmod sec 60) ++ "秒"
  else
    toString (Int.fdiv sec 3600) ++ "時間" ++
      toString (Int.fdiv (Int.fmod sec 3600) 60) ++ "分" ++
      toString (Int.fmod (Int.fmod sec 3600) 60) ++ "秒"

/-- The inline duration rendering in `daily_summary` (`total < 60` /
`total < 3600` / else), applied to `int(self.daily_total.get(uid, 0))`. -/
def summaryFmt (total : Int) : String :=
  if total < 60 then toString total ++ "秒"
  else if total < 3600 then
    toString (Int.fdiv total 60) ++ "分" ++ toString (Int.fmod total 60) ++ "秒"
  else
    toString (Int.fdiv total 3600) ++ "時間" ++
      toString (Int.fdiv (Int.fmod total 3600) 60) ++ "分" ++
      toString (Int.fmod (Int.fmod total 3600) 60) ++ "秒"

/-- `VcNotifier.on_voice_state_update`, embedded as a pure function.
`target` is `bot.config.target_vc_id`, `now` the value `time.time()` returns
in this event.  The second component collects the messages handed to
`self.notify` (delivery itself is modelled separately).  Python truthiness of
`if join_time:` makes a popped start instant of `0` behave like a missing
session. -/
def on_voice_state_update (target : Nat) (now : Int) (member : Member)
    (before after : VoiceState) (st : TrackerState) :
    TrackerState × List String :=
  if member.bot then (st, [])
  else
    -- before_id / after_id via getattr(..., "id", None)
    let beforeId := before.channel.map Channel.id
    let afterId := after.channel.map Channel.id
    -- `if target not in {before_id, after_id}: return`
    if beforeId ≠ some target ∧ afterId ≠ some target then (st, [])
    else
      match before.channel, after.channel with
      | none, some ach =>
          -- 入室 (enter)
          let st1 := { st with
            joinTimes := dictSet st.joinTimes member.id now,
            activeUsers := setAdd st.activeUsers member.id }
          (st1, ["**" ++ member.displayName ++ "** が **" ++ ach.name ++
                 "** に参加しました"])
      | some bch, none =>
          -- 退出 (leave): join_times.pop(member.id, None)
          let popped := dictPop st.joinTimes member.id
          let st1 := { st with joinTimes := popped.2 }
          match popped.1 with
          | some t =>
              if t ≠ 0 then
                let stay := now - t
                let newTotal := dictGetD st.dailyTotal member.id 0 + stay
                let st2 := { st1 with
                  dailyTotal := dictSet st.dailyTotal member.id newTotal,
                  persistedTotals := dictSet st.dailyTotal member.id newTotal }
                (st2, ["**" ++ member.displayName ++ "** が **" ++ bch.name ++
                       "** から退出しました（滞在 " ++ fmt stay ++ "／累計 " ++
                       fmt newTotal ++ "）"])
              else (st1, [])
          | none => (st1, [])
      | _, _ => (st, [])

/-- One line of the daily summary: `・**{name}**：{t_str}` where the name
falls back to the `<@uid>` mention when `bot.get_user(uid)` is `None`. -/
def summaryLine (getUser : Nat → Option String) (totals : List (Nat × Int))
    (uid : Nat) : String :=
  let total := dictGetD totals uid 0
  let name := (getUser uid).getD ("<@" ++ toString uid ++ ">")
  "・**" ++ name ++ "**：" ++ summaryFmt total

/-- The `msg_lines` list built by `daily_summary` before joining with
newlines: header, blank, one line per active user, blank, footer. -/
def summaryLines (getUser : Nat → Option String) (st : TrackerState) :
    List String :=
  ["📊 **本日の勉強時間まとめ**", ""] ++
    st.activeUsers.map (summaryLine getUser st.dailyTotal) ++
    ["", "🌙今日もお疲れさまでした！"]

/-- `VcNotifier.daily_summary`, one tick of the minutely loop.  `nowHour` and
`nowMinute` are the fields of `datetime.now(JST)`.  Fires only at 23:59 with a
non-empty active set; then it sends one joined message, clears `daily_total`
and `active_users`, and saves the (now empty) totals. -/
def daily_summary (nowHour nowMinute : Nat) (getUser : Nat → Option String)
    (st : TrackerState) : TrackerState × List String :=
  if nowHour = 23 ∧ nowMinute = 59 ∧ st.activeUsers ≠ [] then
    ({ st with dailyTotal := [], activeUsers := [], persistedTotals := [] },
     [String.intercalate "\n" (summaryLines getUser st)])
  else (st, [])

/-- Outcome of one `await ch.send(...)` call, or of `bot.fetch_channel`. -/
inductive SendOutcome where
  | ok
  | typeError
  | forbidden
  | otherError
deriving DecidableEq, Repr

/-- The external behaviour `send_to_channel` is exposed to in one call:
whether `bot.get_channel` finds the channel, whether `bot.fetch_channel`
succeeds, and what each of the two `ch.send` variants would do. -/
structure SendEnv where
  getChannelFound : Bool
  fetchChannelOk : Bool
  suppressedSend : SendOutcome
  plainSend : SendOutcome
deriving DecidableEq, Repr

/-- What a call observably does at its caller: returns normally (any logging
already done), or lets an exception escape. -/
inductive CallResult where
  | returned
  | raised (e : SendOutcome)
deriving DecidableEq, Repr

/-- `send_to_channel`: resolve the channel (a failed `fetch_channel` is caught
and returns), then `try: ch.send(content, suppress_notifications=True)` with
`except TypeError:` retrying as a plain `ch.send(content)` — an exception
raised by that retry is *inside* the `TypeError` handler, so the sibling
`except Forbidden` / `except Exception` clauses do not catch it. -/
def send_to_channel (env : SendEnv) : CallResult :=
  if ¬env.getChannelFound ∧ ¬env.fetchChannelOk then .returned
  else
    match env.suppressedSend with
    | .ok => .returned
    | .typeError =>
        match env.plainSend with
        | .ok => .returned
        | e => .raised e
    | .forbidden => .returned
    | .otherError => .returned

/-- `VcNotifier.notify`: `if not self.dest_channel_id` (Python truthiness, so
an id of `0` also counts as unset) log a warning and drop the message;
otherwise delegate to `send_to_channel`. -/
def notify (destChannelId : Option Nat) (env : SendEnv) : CallResult :=
  match destChannelId with
  | none => .returned
  | some d => if d = 0 then .returned else send_to_channel env

/-- A file-system action performed by a save routine. -/
inductive FsOp where
  | ensureDataDir
  | openWrite (path : String)
  | rename (src dst : String)
deriving DecidableEq, Repr

/-- The file-system trace of `save_persisted_dest_channel_id`: make the data
dir, write `CONFIG_PATH.with_suffix(".json.tmp")`, then
`tmp.replace(CONFIG_PATH)`. -/
def save_persisted_dest_channel_id_ops : List FsOp :=
  [.ensureDataDir,
   .openWrite "data/config.json.tmp",
   .rename "data/config.json.tmp" "data/config.json"]

/-- The file-system trace of `VcNotifier._save_daily_totals`: make the data
dir, then open `DAILY_TOTALS_PATH` itself with mode `"w"` and dump into it. -/
def save_daily_totals_ops : List FsOp :=
  [.ensureDataDir, .openWrite "data/daily_totals.json"]

/-- Modelled from the spec: a save trace is an atomic replace of `dest` when
it never opens `dest` for writing directly and instead writes some temporary
path and renames it over `dest`. -/
def atomicReplaceWrite (dest : String) (ops : List FsOp) : Prop :=
  FsOp.openWrite dest ∉ ops ∧
    ∃ tmp, tmp ≠ dest ∧ FsOp.openWrite tmp ∈ ops ∧ FsOp.rename tmp dest ∈ ops

/-- `json.dump` of `daily_total`: an `int`-keyed dict becomes a JSON object
whose keys are the decimal strings of the ids; the decimal-string layer is
modelled as the little-endian digit list `Nat.digits 10`. -/
def saveTotalsDoc (totals : List (Nat × Int)) : List (List Nat × Int) :=
  totals.map (fun p => (Nat.digits 10 p.1, p.2))

/-- `_load_daily_totals` on an existing document:
`{int(k): float(v) for k, v in json.load(f).items()}`, with `int` on the
decimal string modelled by `Nat.ofDigits 10`. -/
def loadTotalsDoc (doc : List (List Nat × Int)) : List (Nat × Int) :=
  doc.map (fun p => (Nat.ofDigits 10 p.1, p.2))

/-- Evaluating the enter branch: a non-bot member moving from no channel into
the target channel gets a fresh start instant, joins the active set, and an
entered message is handed to `notify`. -/
theorem enter_step (target : Nat) (now : Int) (member : Member) (ach : Channel)
    (st : TrackerState) (hbot : member.bot = false) (hid : ach.id = target) :
    on_voice_state_update target now member ⟨none⟩ ⟨some ach⟩ st =
      ({ st with joinTimes := dictSet st.joinTimes member.id now,
                 activeUsers := setAdd st.activeUsers member.id },
       ["**" ++ member.displayName ++ "** が **" ++ ach.name ++
        "** に参加しました"]) := by
  subst hid
  simp [on_voice_state_update, hbot]

/-- Evaluating the leave branch when an open session with a truthy start
instant exists: the session is closed, the stay is accumulated and persisted,
and a left message is handed to `notify`. -/
theorem leave_step (target : Nat) (now t : Int) (member : Member) (bch : Channel)
    (st : TrackerState) (hbot : member.bot = false) (hid : bch.id = target)
    (hjt : dictGet st.joinTimes member.id = some t) (ht : t ≠ 0) :
    on_voice_state_update target now member ⟨some bch⟩ ⟨none⟩ st =
      ({ st with joinTimes := (dictPop st.joinTimes member.id).2,
                 dailyTotal := dictSet st.dailyTotal member.id
                   (dictGetD st.dailyTotal member.id 0 + (now - t)),
                 persistedTotals := dictSet st.dailyTotal member.id
                   (dictGetD st.dailyTotal member.id 0 + (now - t)) },
       ["**" ++ member.displayName ++ "** が **" ++ bch.name ++
        "** から退出しました（滞在 " ++ fmt (now - t) ++ "／累計 " ++
        fmt (dictGetD st.dailyTotal member.id 0 + (now - t)) ++ "）"]) := by
  subst hid
  have hpop : (dictPop st.joinTimes member.id).1 = some t := by
    rw [dictPop_fst]; exact hjt
  simp [on_voice_state_update, hbot, hpop, ht]

/-- `C1` (corrected): the handler conditions are `before.channel is None` /
`after.channel is None`, not membership tests against the target, so a direct
move between the target channel and another voice channel is processed as
neither an enter nor a leave: state and notifications are untouched. -/
theorem c1_counterexample :
    (Member.mk 1 false "alice").bot = false ∧
    (Channel.mk 7 "other").id ≠ 2 ∧
    (Channel.mk 2 "study").id = 2 ∧
    on_voice_state_update 2 100 (Member.mk 1 false "alice")
        (VoiceState.mk (some (Channel.mk 7 "other")))
        (VoiceState.mk (some (Channel.mk 2 "study")))
        (TrackerState.mk (some 9) [] [] [] []) =
      (TrackerState.mk (some 9) [] [] [] [], []) := by
  refine ⟨rfl, by decide, rfl, ?_⟩
  simp [on_voice_state_update]

/-- `C1` (amended): for a non-bot member the handler performs the enter action
(new start instant, active-set membership, entered message) exactly when the
previous location is no channel and the new location is the target channel,
and the leave action exactly when the previous location is the target channel
and the new location is no channel; every other transition — including a move
between the target channel and another voice channel — leaves the state
unchanged and emits nothing. -/
theorem c1_transitions (target : Nat) (now : Int) (member : Member)
    (before after : VoiceState) (st : TrackerState) (hbot : member.bot = false) :
    (before.channel = none → ∀ ach, after.channel = some ach → ach.id = target →
       on_voice_state_update target now member before after st =
         ({ st with joinTimes := dictSet st.joinTimes member.id now,
                    activeUsers := setAdd st.activeUsers member.id },
          ["**" ++ member.displayName ++ "** が **" ++ ach.name ++
           "** に参加しました"])) ∧
    (before.channel = none → ∀ ach, after.channel = some ach → ach.id ≠ target →
       on_voice_state_update target now member before after st = (st, [])) ∧
    (after.channel = none → ∀ bch, before.channel = some bch → bch.id = target →
       ∀ t, dictGet st.joinTimes member.id = some t → t ≠ 0 →
       on_voice_state_update target now member before after st =
         ({ st with joinTimes := (dictPop st.joinTimes member.id).2,
                    dailyTotal := dictSet st.dailyTotal member.id
                      (dictGetD st.dailyTotal member.id 0 + (now - t)),
                    persistedTotals := dictSet st.dailyTotal member.id
                      (dictGetD st.dailyTotal member.id 0 + (now - t)) },
          ["**" ++ member.displayName ++ "** が **" ++ bch.name ++
           "** から退出しました（滞在 " ++ fmt (now - t) ++ "／累計 " ++
           fmt (dictGetD st.dailyTotal member.id 0 + (now - t)) ++ "）"])) ∧
    (after.channel = none → ∀ bch, before.channel = some bch → bch.id ≠ target →
       on_voice_state_update target now member before after st = (st, [])) ∧
    (∀ bch ach, before.channel = some bch → after.channel = some ach →
       on_voice_state_update target now member before after st = (st, [])) ∧
    (before.channel = none → after.channel = none →
       on_voice_state_update target now member before after st = (st, [])) := by
  obtain ⟨bc⟩ := before
  obtain ⟨ac⟩ := after
  refine ⟨?_, ?_, ?_, ?_, ?_, ?_⟩
  · rintro hb ach ha hid
    simp only at hb ha
    subst hb; subst ha
    exact enter_step target now member ach st hbot hid
  · rintro hb ach ha hid
    simp only at hb ha
    subst hb; subst ha
    simp [on_voice_state_update, hbot, hid]
  · rintro ha bch hb hid t hjt ht
    simp only at hb ha
    subst hb; subst ha
    exact leave_step target now t member bch st hbot hid hjt ht
  · rintro ha bch hb hid
    simp only at hb ha
    subst hb; subst ha
    simp [on_voice_state_update, hbot, hid]
  · rintro bch ach hb ha
    simp only at hb ha
    subst hb; subst ha
    simp only [on_voice_state_update, hbot, Bool.false_eq_true, if_false]
    split <;> rfl
  · rintro hb ha
    simp only at hb ha
    subst hb; subst ha
    simp [on_voice_state_update, hbot]

/-- Witness for `c1_transitions`: a concrete enter, no-channel → target. -/
theorem c1_transitions_witness :
    (Member.mk 1 false "alice").bot = false ∧
    on_voice_state_update 2 100 (Member.mk 1 false "alice") (VoiceState.mk none)
        (VoiceState.mk (some (Channel.mk 2 "study")))
        (TrackerState.mk (some 9) [] [] [] []) =
      (TrackerState.mk (some 9) [(1, 100)] [] [1] [],
       ["**alice** が **study** に参加しました"]) := by
  refine ⟨rfl, ?_⟩
  rw [(c1_transitions 2 100 (Member.mk 1 false "alice") (VoiceState.mk none)
      (VoiceState.mk (some (Channel.mk 2 "study")))
      (TrackerState.mk (some 9) [] [] [] []) rfl).1 rfl (Channel.mk 2 "study") rfl rfl]
  rfl

/-- `C3` (corrected): `stay = time.time() - join_time` is not clamped — a
member who entered at instant 100 and leaves when the wall clock reads 40 has
`-60` added to the daily totals, a negative duration. -/
theorem c3_counterexample :
    dictGet ((on_voice_state_update 2 40 (Member.mk 1 false "alice")
        (VoiceState.mk (some (Channel.mk 2 "study"))) (VoiceState.mk none)
        ((on_voice_state_update 2 100 (Member.mk 1 false "alice")
          (VoiceState.mk none) (VoiceState.mk (some (Channel.mk 2 "study")))
          (TrackerState.mk (some 9) [] [] [] [])).1)).1.dailyTotal) 1 =
      some (-60) ∧
    (-60 : Int) < 0 := by
  constructor
  · simp [on_voice_state_update, dictSet, setAdd, dictPop, dictGetD, dictGet]
  · decide

/-- `C3` (amended): on a leave that closes an open session the duration
handed to the Aggregator equals leave time minus the recorded enter instant,
with no clamping; it is non-negative only provided the clock did not run
backwards between enter and leave. -/
theorem c3_leave_duration (target : Nat) (now t : Int) (member : Member)
    (bch : Channel) (st : TrackerState) (hbot : member.bot = false)
    (hid : bch.id = target) (hjt : dictGet st.joinTimes member.id = some t)
    (ht : t ≠ 0) :
    dictGetD ((on_voice_state_update target now member ⟨some bch⟩ ⟨none⟩
        st).1).dailyTotal member.id 0 =
      dictGetD st.dailyTotal member.id 0 + (now - t) ∧
    (t ≤ now → 0 ≤ now - t) := by
  constructor
  · rw [leave_step target now t member bch st hbot hid hjt ht]
    simp [dictGetD]
  · omega

/-- Witness for `c3_leave_duration`: enter at 100, leave at 190, stay 90. -/
theorem c3_leave_duration_witness :
    (Member.mk 1 false "alice").bot = false ∧
    (Channel.mk 2 "study").id = 2 ∧
    dictGet (TrackerState.mk (some 9) [(1, 100)] [] [1] []).joinTimes 1 =
      some 100 ∧
    (100 : Int) ≠ 0 ∧
    (dictGetD ((on_voice_state_update 2 190 (Member.mk 1 false "alice")
        (VoiceState.mk (some (Channel.mk 2 "study"))) (VoiceState.mk none)
        (TrackerState.mk (some 9) [(1, 100)] [] [1] [])).1).dailyTotal 1 0 =
        dictGetD (TrackerState.mk (some 9) [(1, 100)] [] [1] []).dailyTotal 1 0 +
          (190 - 100) ∧
      ((100 : Int) ≤ 190 → 0 ≤ (190 : Int) - 100)) :=
  ⟨rfl, rfl, by decide, by decide,
   c3_leave_duration 2 190 100 (Member.mk 1 false "alice") (Channel.mk 2 "study")
     (TrackerState.mk (some 9) [(1, 100)] [] [1] []) rfl rfl (by decide) (by decide)⟩

/-- `C6` (confirmed): a leave from the target channel for a member with no
open session leaves the entire state — totals, active set, join times,
persisted document — unchanged and emits no notification. -/
theorem c6_leave_without_session (target : Nat) (now : Int) (member : Member)
    (bch : Channel) (st : TrackerState) (hbot : member.bot = false)
    (hid : bch.id = target) (hjt : dictGet st.joinTimes member.id = none) :
    on_voice_state_update target now member ⟨some bch⟩ ⟨none⟩ st = (st, []) := by
  subst hid
  have hpop1 : (dictPop st.joinTimes member.id).1 = none := by
    rw [dictPop_fst]; exact hjt
  have hpop2 : (dictPop st.joinTimes member.id).2 = st.joinTimes :=
    dictPop_snd_of_absent _ _ hjt
  simp [on_voice_state_update, hbot, hpop1, hpop2]

/-- Witness for `c6_leave_without_session`: a leave on an empty join table. -/
theorem c6_leave_without_session_witness :
    (Member.mk 1 false "alice").bot = false ∧
    (Channel.mk 2 "study").id = 2 ∧
    dictGet (TrackerState.mk (some 9) [] [(3, 7)] [3] [(3, 7)]).joinTimes 1 =
      none ∧
    on_voice_state_update 2 40 (Member.mk 1 false "alice")
        (VoiceState.mk (some (Channel.mk 2 "study"))) (VoiceState.mk none)
        (TrackerState.mk (some 9) [] [(3, 7)] [3] [(3, 7)]) =
      (TrackerState.mk (some 9) [] [(3, 7)] [3] [(3, 7)], []) :=
  ⟨rfl, rfl, by decide,
   c6_leave_without_session 2 40 (Member.mk 1 false "alice") (Channel.mk 2 "study")
     (TrackerState.mk (some 9) [] [(3, 7)] [3] [(3, 7)]) rfl rfl (by decide)⟩

/-- `C7` (confirmed): a second enter without an intervening leave overwrites
the open-session start instant, the duplicate enter still emits its entered
notification (no error), and the next leave accumulates exactly
`now - t2` — a duration measured from the latest enter only. -/
theorem c7_duplicate_enter (target : Nat) (t1 t2 now : Int) (member : Member)
    (ch : Channel) (st : TrackerState) (hbot : member.bot = false)
    (hid : ch.id = target) (ht2 : t2 ≠ 0) :
    dictGet ((on_voice_state_update target t2 member ⟨none⟩ ⟨some ch⟩
        ((on_voice_state_update target t1 member ⟨none⟩ ⟨some ch⟩
          st).1)).1).joinTimes member.id = some t2 ∧
    ((on_voice_state_update target t2 member ⟨none⟩ ⟨some ch⟩
        ((on_voice_state_update target t1 member ⟨none⟩ ⟨some ch⟩
          st).1)).2).length = 1 ∧
    (on_voice_state_update target now member ⟨some ch⟩ ⟨none⟩
        ((on_voice_state_update target t2 member ⟨none⟩ ⟨some ch⟩
          ((on_voice_state_update target t1 member ⟨none⟩ ⟨some ch⟩
            st).1)).1)).1.dailyTotal =
      dictSet ((on_voice_state_update target t2 member ⟨none⟩ ⟨some ch⟩
          ((on_voice_state_update target t1 member ⟨none⟩ ⟨some ch⟩
            st).1)).1).dailyTotal member.id
        (dictGetD ((on_voice_state_update target t2 member ⟨none⟩ ⟨some ch⟩
            ((on_voice_state_update target t1 member ⟨none⟩ ⟨some ch⟩
              st).1)).1).dailyTotal member.id 0 + (now - t2)) := by
  have hjt : dictGet ((on_voice_state_update target t2 member ⟨none⟩ ⟨some ch⟩
      ((on_voice_state_update target t1 member ⟨none⟩ ⟨some ch⟩
        st).1)).1).joinTimes member.id = some t2 := by
    rw [enter_step target t1 member ch st hbot hid,
      enter_step target t2 member ch _ hbot hid]
    exact dictGet_dictSet _ _ _
  refine ⟨hjt, ?_, ?_⟩
  · rw [enter_step target t1 member ch st hbot hid,
      enter_step target t2 member ch _ hbot hid]
    rfl
  · rw [leave_step target now t2 member ch _ hbot hid hjt ht2]

/-- Witness for `c7_duplicate_enter`: enters at 100 and 150, leave at 180. -/
theorem c7_duplicate_enter_witness :
    (Member.mk 1 false "alice").bot = false ∧
    (Channel.mk 2 "study").id = 2 ∧
    (150 : Int) ≠ 0 ∧
    dictGet ((on_voice_state_update 2 150 (Member.mk 1 false "alice")
        (VoiceState.mk none) (VoiceState.mk (some (Channel.mk 2 "study")))
        ((on_voice_state_update 2 100 (Member.mk 1 false "alice")
          (VoiceState.mk none) (VoiceState.mk (some (Channel.mk 2 "study")))
          (TrackerState.mk (some 9) [] [] [] [])).1)).1).joinTimes 1 =
      some 150 := by
  refine ⟨rfl, rfl, by decide, ?_⟩
  exact (c7_duplicate_enter 2 100 150 180 (Member.mk 1 false "alice")
    (Channel.mk 2 "study") (TrackerState.mk (some 9) [] [] [] [])
    rfl rfl (by decide)).1

/-- `C8` (confirmed): for non-negative second counts `fmt` renders seconds
only below 60, minutes and seconds below 3600 and hours, minutes and seconds
from 3600 on, with zero-valued lower units still rendered, and the inline
rendering in `daily_summary` agrees with `fmt` everywhere. -/
theorem c8_fmt (s : Int) (_h : 0 ≤ s) :
    (s < 60 → fmt s = toString s ++ "秒") ∧
    (60 ≤ s → s < 3600 → ∃ m r, s = 60 * m + r ∧ 1 ≤ m ∧ 0 ≤ r ∧ r < 60 ∧
       fmt s = toString m ++ "分" ++ toString r ++ "秒") ∧
    (3600 ≤ s → ∃ hh m r, s = 3600 * hh + 60 * m + r ∧ 1 ≤ hh ∧
       0 ≤ m ∧ m < 60 ∧ 0 ≤ r ∧ r < 60 ∧
       fmt s = toString hh ++ "時間" ++ toString m ++ "分" ++
         toString r ++ "秒") ∧
    summaryFmt s = fmt s := by
  have hd60 : Int.fdiv s 60 = s / 60 := Int.fdiv_eq_ediv s (by norm_num)
  have hm60 : Int.fmod s 60 = s % 60 := Int.fmod_eq_emod s (by norm_num)
  have hd3600 : Int.fdiv s 3600 = s / 3600 := Int.fdiv_eq_ediv s (by norm_num)
  have hm3600 : Int.fmod s 3600 = s % 3600 := Int.fmod_eq_emod s (by norm_num)
  have hd2 : Int.fdiv (Int.fmod s 3600) 60 = (s % 3600) / 60 := by
    rw [hm3600]; exact Int.fdiv_eq_ediv _ (by norm_num)
  have hm2 : Int.fmod (Int.fmod s 3600) 60 = (s % 3600) % 60 := by
    rw [hm3600]; exact Int.fmod_eq_emod _ (by norm_num)
  refine ⟨?_, ?_, ?_, rfl⟩
  · intro hlt
    simp only [fmt]
    rw [if_pos hlt]
  · intro h60 h3600
    refine ⟨s / 60, s % 60, by omega, by omega, by omega, by omega, ?_⟩
    simp only [fmt]
    rw [if_neg (by omega), if_pos h3600, hd60, hm60]
  · intro h3600
    refine ⟨s / 3600, (s % 3600) / 60, (s % 3600) % 60,
      by omega, by omega, by omega, by omega, by omega, by omega, ?_⟩
    simp only [fmt]
    rw [if_neg (by omega), if_neg (by omega), hd3600, hd2, hm2]

/-- Witness for `c8_fmt`: the spec's own example inputs 45, 125 and 3725. -/
theorem c8_fmt_witness :
    (0 : Int) ≤ 45 ∧ fmt 45 = "45秒" ∧
    fmt 125 = "2分5秒" ∧ fmt 3725 = "1時間2分5秒" ∧
    summaryFmt 3725 = fmt 3725 := by
  refine ⟨by decide, ?_, by decide, by decide,
    (c8_fmt 3725 (by decide)).2.2.2⟩
  exact (c8_fmt 45 (by decide)).1 (by decide)

/-- `C5` (confirmed): one tick of `daily_summary` fires exactly at 23:59 JST
with a non-empty active set; when it fires it emits exactly one message — the
joined summary lines, one line per active member — and afterwards the totals
mapping, the active set and the persisted totals document are all empty. -/
theorem c5_rollover (hh mm : Nat) (g : Nat → Option String) (st : TrackerState) :
    ((daily_summary hh mm g st).2 ≠ [] ↔
       hh = 23 ∧ mm = 59 ∧ st.activeUsers ≠ []) ∧
    (hh = 23 → mm = 59 → st.activeUsers ≠ [] →
       (daily_summary hh mm g st).2 =
         [String.intercalate "\n" (summaryLines g st)] ∧
       (∀ uid ∈ st.activeUsers,
          summaryLine g st.dailyTotal uid ∈ summaryLines g st) ∧
       (daily_summary hh mm g st).1.dailyTotal = [] ∧
       (daily_summary hh mm g st).1.activeUsers = [] ∧
       (daily_summary hh mm g st).1.persistedTotals = []) ∧
    (¬(hh = 23 ∧ mm = 59 ∧ st.activeUsers ≠ []) →
       daily_summary hh mm g st = (st, [])) := by
  by_cases hcond : hh = 23 ∧ mm = 59 ∧ st.activeUsers ≠ []
  · refine ⟨by simp [daily_summary, hcond], ?_, fun hn => absurd hcond hn⟩
    intro _ _ _
    refine ⟨by simp [daily_summary, hcond], ?_, by simp [daily_summary, hcond],
      by simp [daily_summary, hcond], by simp [daily_summary, hcond]⟩
    intro uid hmem
    have hmap : summaryLine g st.dailyTotal uid ∈
        List.map (summaryLine g st.dailyTotal) st.activeUsers :=
      List.mem_map_of_mem _ hmem
    simp [summaryLines, hmap]
  · refine ⟨by simp [daily_summary, hcond], ?_, fun _ => by simp [daily_summary, hcond]⟩
    intro h23 h59 hne
    exact absurd ⟨h23, h59, hne⟩ hcond

/-- `C10` (confirmed): a member of the active set with no totals entry is
still listed in the rollover summary, rendered with a zero total as `0秒`;
active-set membership is granted by the enter handler itself, before any
duration is accumulated. -/
theorem c10_active_member_zero_total (st : TrackerState)
    (g : Nat → Option String) (uid : Nat) (name : String)
    (hmem : uid ∈ st.activeUsers) (habs : dictGet st.dailyTotal uid = none)
    (hname : g uid = some name) :
    ("・**" ++ name ++ "**：" ++ summaryFmt 0) ∈ summaryLines g st ∧
    summaryFmt 0 = "0秒" ∧
    (∀ (target : Nat) (now : Int) (member : Member) (ach : Channel)
       (stx : TrackerState), member.bot = false → ach.id = target →
       member.id ∈ ((on_voice_state_update target now member ⟨none⟩ ⟨some ach⟩
         stx).1).activeUsers) := by
  refine ⟨?_, rfl, ?_⟩
  · have hline : summaryLine g st.dailyTotal uid =
        "・**" ++ name ++ "**：" ++ summaryFmt 0 := by
      simp [summaryLine, dictGetD, habs, hname]
    have hmap : summaryLine g st.dailyTotal uid ∈
        List.map (summaryLine g st.dailyTotal) st.activeUsers :=
      List.mem_map_of_mem _ hmem
    rw [← hline]
    simp [summaryLines, hmap]
  · intro target now member ach stx hbot hid
    rw [enter_step target now member ach stx hbot hid]
    exact setAdd_mem_self _ _

/-- Witness for `c10_active_member_zero_total`: member 3 is active with no
totals entry and its summary line reads `0秒`. -/
theorem c10_active_member_zero_total_witness :
    (3 : Nat) ∈ (TrackerState.mk (some 9) [] [(1, 95)] [1, 3] [(1, 95)]).activeUsers ∧
    dictGet (TrackerState.mk (some 9) [] [(1, 95)] [1, 3] [(1, 95)]).dailyTotal 3 =
      none ∧
    (fun u : Nat => if u = 3 then some "bob" else none) 3 = some "bob" ∧
    ("・**" ++ "bob" ++ "**：" ++ summaryFmt 0) ∈
      summaryLines (fun u : Nat => if u = 3 then some "bob" else none)
        (TrackerState.mk (some 9) [] [(1, 95)] [1, 3] [(1, 95)]) := by
  refine ⟨by decide, by decide, by decide, ?_⟩
  exact (c10_active_member_zero_total
    (TrackerState.mk (some 9) [] [(1, 95)] [1, 3] [(1, 95)])
    (fun u : Nat => if u = 3 then some "bob" else none) 3 "bob"
    (by decide) (by decide) (by decide)).1

/-- `C9` (confirmed): saving any totals mapping — member ids stringified by
`json.dump`, parsed back with `int` and `float` by `_load_daily_totals` —
and loading it again returns the same mapping, including the empty one. -/
theorem c9_totals_roundtrip (T : List (Nat × Int)) :
    loadTotalsDoc (saveTotalsDoc T) = T := by
  unfold loadTotalsDoc saveTotalsDoc
  rw [List.map_map]
  have hcomp : ((fun p : List Nat × Int => (Nat.ofDigits 10 p.1, p.2)) ∘
      fun p : Nat × Int => (Nat.digits 10 p.1, p.2)) = id := by
    funext p
    simp [Function.comp, Nat.ofDigits_digits]
  rw [hcomp, List.map_id]

/-- `C4` (corrected): when the suppressed send raises `TypeError` and the
plain-send fallback then fails, the fallback runs inside the `except
TypeError:` handler, so its exception is not caught by the sibling handlers
and propagates to `notify`'s caller. -/
theorem c4_counterexample :
    notify (some 5) (SendEnv.mk true true SendOutcome.typeError
        SendOutcome.forbidden) =
      CallResult.raised SendOutcome.forbidden ∧
    CallResult.raised SendOutcome.forbidden ≠ CallResult.returned := by
  exact ⟨rfl, by decide⟩

/-- `C4` (amended): `notify` never lets an exception escape — no destination
is a logged warning, a failed channel fetch, a `Forbidden` and any other
exception of the suppressed send are all caught — except in the single case
where the suppressed send raises `TypeError` and the plain-send fallback
itself fails; whenever the fallback is not reached or succeeds, the call
returns normally. -/
theorem c4_notify_no_propagation (dest : Option Nat) (env : SendEnv)
    (h : env.suppressedSend = SendOutcome.typeError →
      env.plainSend = SendOutcome.ok) :
    notify dest env = CallResult.returned := by
  obtain ⟨gc, fc, ss, ps⟩ := env
  match dest with
  | none => rfl
  | some d =>
      simp only [notify]
      by_cases hd : d = 0
      · simp [hd]
      · simp only [hd, if_false]
        simp only at h
        cases ss with
        | ok => cases gc <;> cases fc <;> simp [send_to_channel]
        | typeError =>
            have hps : ps = SendOutcome.ok := h rfl
            subst hps
            cases gc <;> cases fc <;> simp [send_to_channel]
        | forbidden => cases gc <;> cases fc <;> simp [send_to_channel]
        | otherError => cases gc <;> cases fc <;> simp [send_to_channel]

/-- Witness for `c4_notify_no_propagation`: a `Forbidden` on the suppressed
send is swallowed and the call returns. -/
theorem c4_notify_no_propagation_witness :
    ((SendEnv.mk true true SendOutcome.forbidden
        SendOutcome.forbidden).suppressedSend = SendOutcome.typeError →
      (SendEnv.mk true true SendOutcome.forbidden
        SendOutcome.forbidden).plainSend = SendOutcome.ok) ∧
    notify (some 5) (SendEnv.mk true true SendOutcome.forbidden
        SendOutcome.forbidden) = CallResult.returned :=
  ⟨by decide,
   c4_notify_no_propagation (some 5)
     (SendEnv.mk true true SendOutcome.forbidden SendOutcome.forbidden)
     (by decide)⟩

/-- `C2` (corrected): `_save_daily_totals` opens the destination file
`data/daily_totals.json` itself for writing — it is not a write-temporary-
then-rename save, so a reader can observe a partially written totals
document. -/
theorem c2_counterexample :
    FsOp.openWrite "data/daily_totals.json" ∈ save_daily_totals_ops ∧
    ¬ atomicReplaceWrite "data/daily_totals.json" save_daily_totals_ops := by
  refine ⟨by decide, fun hA => hA.1 (by decide)⟩

/-- `C2` (amended): the destination-channel config save writes
`data/config.json.tmp` and atomically renames it over `data/config.json`,
but the daily-totals save writes `data/daily_totals.json` directly, with no
temporary file and no rename. -/
theorem c2_save_atomicity :
    atomicReplaceWrite "data/config.json" save_persisted_dest_channel_id_ops ∧
    FsOp.openWrite "data/daily_totals.json" ∈ save_daily_totals_ops ∧
    FsOp.rename "data/daily_totals.json.tmp" "data/daily_totals.json" ∉
      save_daily_totals_ops := by
  refine ⟨⟨by decide, "data/config.json.tmp", by decide, by decide, by decide⟩,
    by decide, by decide⟩

end VcBot
